import Mathlib

/-!
Verification of the deformable snow-field model (SnowFieldSystem and the
equivalent top-level code in main.js).

The per-vertex state, the radial press algorithm, the world-to-index
mapping, the render-attribute derivation (positions, colors, normals) and
the reset operation are embedded as pure Lean functions over the real
numbers.  Mutation of the geometry attributes is modelled by deriving the
buffers from the state; the base positions are fixed at construction and
never change, so they are derived from the grid parameters.
-/

namespace SnowTrack

noncomputable section

/-- A 3D vector with real components, modelling THREE.Vector3 as used by
the snow-field code. -/
@[ext]
structure Vec3 where
  x : ℝ
  y : ℝ
  z : ℝ

/-- Componentwise difference: THREE's subVectors(a, b). -/
def Vec3.sub (a b : Vec3) : Vec3 :=
  ⟨a.x - b.x, a.y - b.y, a.z - b.z⟩

/-- Componentwise sum: THREE's add. -/
def Vec3.add (a b : Vec3) : Vec3 :=
  ⟨a.x + b.x, a.y + b.y, a.z + b.z⟩

/-- Cross product, THREE's crossVectors(a, b). -/
def Vec3.cross (a b : Vec3) : Vec3 :=
  ⟨a.y * b.z - a.z * b.y, a.z * b.x - a.x * b.z, a.x * b.y - a.y * b.x⟩

/-- Euclidean length, THREE's length(). -/
def Vec3.length (v : Vec3) : ℝ :=
  Real.sqrt (v.x ^ 2 + v.y ^ 2 + v.z ^ 2)

/-- THREE's normalize(): divideScalar(length() OR 1), so a zero-length
vector is divided by 1 and returned unchanged (never NaN). -/
def Vec3.normalize (v : Vec3) : Vec3 :=
  if v.length = 0 then v
  else ⟨v.x / v.length, v.y / v.length, v.z / v.length⟩

/-- The mutable per-grid state of the snow field: the grid parameters
(snowSize, snowSegments) fixed by init, and the two per-sample arrays
mutated by pressSnow/resetSnow.  The arrays are modelled as total
functions on sample indices; only indices below count are ever touched. -/
@[ext]
structure SnowState where
  snowSize : ℝ
  snowSegments : ℕ
  elevations : ℕ → ℝ
  trackIntensity : ℕ → ℝ

/-- Number of samples of the grid: (segments+1)^2 vertices of the
PlaneGeometry. -/
def SnowState.count (s : SnowState) : ℕ :=
  (s.snowSegments + 1) ^ 2

/-- subdivision = size / segments, set in init(). -/
def SnowState.subdivision (s : SnowState) : ℝ :=
  s.snowSize / (s.snowSegments : ℝ)

/-- Base x coordinate of sample i.  Modelled from the spec: construct()
lays the samples on a flat plane with x spanning [-size/2, size/2] in
uniform steps of subdivision, stored row-major (this is what
THREE.PlaneGeometry(size, size, segments, segments) rotated by
rotateX(-pi/2) produces, saved into basePositions by initSnowData). -/
def SnowState.baseX (s : SnowState) (i : ℕ) : ℝ :=
  ((i % (s.snowSegments + 1) : ℕ) : ℝ) * s.subdivision - s.snowSize / 2

/-- Base y coordinate of sample i: the undeformed surface is flat at
height 0. -/
def SnowState.baseY (s : SnowState) (i : ℕ) : ℝ :=
  0

/-- Base z coordinate of sample i.  Modelled from the spec, as baseX:
z spans [-size/2, size/2] in uniform steps, advancing once per row. -/
def SnowState.baseZ (s : SnowState) (i : ℕ) : ℝ :=
  ((i / (s.snowSegments + 1) : ℕ) : ℝ) * s.subdivision - s.snowSize / 2

/-- The base normals recorded by initSnowData: (0, 1, 0) for every
sample; these are also the normals of the freshly constructed rotated
plane geometry. -/
def baseNormalAt (i : ℕ) : Vec3 :=
  ⟨0, 1, 0⟩

/-- initSnowData: all elevations and track intensities start at 0. -/
def initSnowData (size : ℝ) (segments : ℕ) : SnowState :=
  { snowSize := size
    snowSegments := segments
    elevations := fun _ => 0
    trackIntensity := fun _ => 0 }

/-- pressSnow(x, z, radius, depth, colorIntensity): for every sample i
below count, compute the planar distance from the base position to the
press center; inside the radius, lower the elevation to
min(old, -depth * influence) and raise the track intensity to
max(old, colorIntensity * influence), where influence = 1 - d/radius.
The code writes the new value only when it strictly lowers (resp.
raises) the old one, which is reproduced literally here. -/
def pressSnow (s : SnowState) (x z radius depth colorIntensity : ℝ) : SnowState :=
  { s with
    elevations := fun i =>
      if i < s.count then
        let vx := s.baseX i
        let vz := s.baseZ i
        let distance := Real.sqrt ((vx - x) ^ 2 + (vz - z) ^ 2)
        if distance < radius then
          let influence := 1 - distance / radius
          let newElevation := min (s.elevations i) (-depth * influence)
          if newElevation < s.elevations i then newElevation else s.elevations i
        else s.elevations i
      else s.elevations i
    trackIntensity := fun i =>
      if i < s.count then
        let vx := s.baseX i
        let vz := s.baseZ i
        let distance := Real.sqrt ((vx - x) ^ 2 + (vz - z) ^ 2)
        if distance < radius then
          let influence := 1 - distance / radius
          let newIntensity := max (s.trackIntensity i) (colorIntensity * influence)
          if s.trackIntensity i < newIntensity then newIntensity else s.trackIntensity i
        else s.trackIntensity i
      else s.trackIntensity i }

/-- resetSnow: zero every elevation and track intensity below count. -/
def resetSnow (s : SnowState) : SnowState :=
  { s with
    elevations := fun i => if i < s.count then 0 else s.elevations i
    trackIntensity := fun i => if i < s.count then 0 else s.trackIntensity i }

/-- The position buffer derived by updateSnowGeometry: only the y
component is rewritten (setY with base y + elevation); x and z keep the
original geometry values, i.e. the base coordinates. -/
def posAt (s : SnowState) (i : ℕ) : Vec3 :=
  ⟨s.baseX i, s.baseY i + s.elevations i, s.baseZ i⟩

/-- The color buffer derived by updateSnowGeometry:
(1 - t*0.2, 1 - t*0.15, 1 - t*0.1) for t the track intensity. -/
def colorAt (s : SnowState) (i : ℕ) : Vec3 :=
  let intensity := s.trackIntensity i
  ⟨1 - intensity * 0.2, 1 - intensity * 0.15, 1 - intensity * 0.1⟩

/-- Left neighbour index in updateSnowGeometry: i - 1 when the grid x
coordinate is positive, else the sample itself. -/
def leftIdx (s : SnowState) (i : ℕ) : ℕ :=
  if 0 < i % (s.snowSegments + 1) then i - 1 else i

/-- Right neighbour index: i + 1 when the grid x coordinate is below
snowSegments, else the sample itself. -/
def rightIdx (s : SnowState) (i : ℕ) : ℕ :=
  if i % (s.snowSegments + 1) < s.snowSegments then i + 1 else i

/-- Top neighbour index: one row up when the grid z coordinate is
positive, else the sample itself. -/
def topIdx (s : SnowState) (i : ℕ) : ℕ :=
  if 0 < i / (s.snowSegments + 1) then i - (s.snowSegments + 1) else i

/-- Bottom neighbour index: one row down when the grid z coordinate is
below snowSegments, else the sample itself. -/
def bottomIdx (s : SnowState) (i : ℕ) : ℕ :=
  if i / (s.snowSegments + 1) < s.snowSegments then i + (s.snowSegments + 1) else i

/-- The normal buffer derived by updateSnowGeometry: normalized edge
vectors to the four (clamped) neighbours, the four normalized cross
products right x bottom, bottom x left, left x top, top x right, then the
normalized sum. -/
def normalAt (s : SnowState) (i : ℕ) : Vec3 :=
  let currentPos := posAt s i
  let leftPos := posAt s (leftIdx s i)
  let rightPos := posAt s (rightIdx s i)
  let topPos := posAt s (topIdx s i)
  let bottomPos := posAt s (bottomIdx s i)
  let toRight := (Vec3.sub rightPos currentPos).normalize
  let toBottom := (Vec3.sub bottomPos currentPos).normalize
  let toLeft := (Vec3.sub leftPos currentPos).normalize
  let toTop := (Vec3.sub topPos currentPos).normalize
  let normal1 := (Vec3.cross toRight toBottom).normalize
  let normal2 := (Vec3.cross toBottom toLeft).normalize
  let normal3 := (Vec3.cross toLeft toTop).normalize
  let normal4 := (Vec3.cross toTop toRight).normalize
  (Vec3.add (Vec3.add (Vec3.add normal1 normal2) normal3) normal4).normalize

/-- getVertexIndex(x, z): floor((coord + size/2)/subdivision) per axis,
clamped to [0, segments], combined as z*(segments+1) + x. -/
def getVertexIndex (s : SnowState) (x z : ℝ) : ℤ :=
  let halfSize := s.snowSize / 2
  let xIndex := ⌊(x + halfSize) / s.subdivision⌋
  let zIndex := ⌊(z + halfSize) / s.subdivision⌋
  let clampedXIndex := max 0 (min (s.snowSegments : ℤ) xIndex)
  let clampedZIndex := max 0 (min (s.snowSegments : ℤ) zIndex)
  clampedZIndex * ((s.snowSegments : ℤ) + 1) + clampedXIndex

/-- Left neighbour as the spec words it: substitute the sample itself
when the grid x coordinate sits on the low boundary. -/
def specLeft (s : SnowState) (i : ℕ) : ℕ :=
  if i % (s.snowSegments + 1) = 0 then i else i - 1

/-- Right neighbour as the spec words it. -/
def specRight (s : SnowState) (i : ℕ) : ℕ :=
  if i % (s.snowSegments + 1) = s.snowSegments then i else i + 1

/-- Top neighbour as the spec words it. -/
def specTop (s : SnowState) (i : ℕ) : ℕ :=
  if i / (s.snowSegments + 1) = 0 then i else i - (s.snowSegments + 1)

/-- Bottom neighbour as the spec words it. -/
def specBottom (s : SnowState) (i : ℕ) : ℕ :=
  if i / (s.snowSegments + 1) = s.snowSegments then i else i + (s.snowSegments + 1)

/-- Normalized edge vector from sample i's current position to sample
j's current position, as the spec words it. -/
def specEdge (s : SnowState) (i j : ℕ) : Vec3 :=
  (Vec3.sub (posAt s j) (posAt s i)).normalize

/-- The spec's description of the normal estimator: four clamped
neighbours, four normalized edge vectors, the four normalized cross
products right x bottom, bottom x left, left x top, top x right, summed
and re-normalized. -/
def specNormalAt (s : SnowState) (i : ℕ) : Vec3 :=
  let r := specEdge s i (specRight s i)
  let b := specEdge s i (specBottom s i)
  let l := specEdge s i (specLeft s i)
  let t := specEdge s i (specTop s i)
  (Vec3.add (Vec3.add (Vec3.add
    (Vec3.cross r b).normalize
    (Vec3.cross b l).normalize)
    (Vec3.cross l t).normalize)
    (Vec3.cross t r).normalize).normalize

open Classical in
/-- The spec's degenerate-case variant of the normal estimator: a
zero-length raw edge vector short-circuits the cross products it takes
part in, contributing the zero vector instead. -/
def skipNormalAt (s : SnowState) (i : ℕ) : Vec3 :=
  let eR := Vec3.sub (posAt s (rightIdx s i)) (posAt s i)
  let eB := Vec3.sub (posAt s (bottomIdx s i)) (posAt s i)
  let eL := Vec3.sub (posAt s (leftIdx s i)) (posAt s i)
  let eT := Vec3.sub (posAt s (topIdx s i)) (posAt s i)
  let term := fun a b : Vec3 =>
    if a = Vec3.mk 0 0 0 ∨ b = Vec3.mk 0 0 0 then Vec3.mk 0 0 0
    else (Vec3.cross a.normalize b.normalize).normalize
  (Vec3.add (Vec3.add (Vec3.add
    (term eR eB) (term eB eL)) (term eL eT)) (term eT eR)).normalize

/-- The spec's InvalidArgument error (the code itself defines no such
error and has no failure path). -/
inductive ConstructError where
  | invalidArgument

/-- The constructor plus init(), as the code has them: options.size and
options.segments fall back to the defaults 20 and 100 via the JS OR
operator when absent or equal to 0; no validation is performed and no
path throws, so the result is always ok. -/
def construct (sizeOpt : Option ℝ) (segmentsOpt : Option ℕ) :
    Except ConstructError SnowState :=
  let size := match sizeOpt with
    | none => 20
    | some v => if v = 0 then 20 else v
  let segments := match segmentsOpt with
    | none => 100
    | some v => if v = 0 then 100 else v
  Except.ok (initSnowData size segments)

/-- One pressSnow call's arguments. -/
structure PressCall where
  x : ℝ
  z : ℝ
  radius : ℝ
  depth : ℝ
  colorIntensity : ℝ

/-- Apply one recorded press call. -/
def applyCall (s : SnowState) (c : PressCall) : SnowState :=
  pressSnow s c.x c.z c.radius c.depth c.colorIntensity

/-- Apply a sequence of press calls in order. -/
def applyCalls (s : SnowState) (calls : List PressCall) : SnowState :=
  calls.foldl applyCall s

/-- The argument bounds the spec places on a deformation call. -/
def ValidCall (c : PressCall) : Prop :=
  0 < c.radius ∧ 0 ≤ c.depth ∧ 0 ≤ c.colorIntensity ∧ c.colorIntensity ≤ 1

/-- Length of the elevations buffer allocated by the top-level code in
main.js: new Float32Array(count). -/
def mainElevationsLength (count : ℕ) : ℕ :=
  count

/-- Length of the trackIntensity buffer allocated by the top-level code
in main.js: new Float32Array(count*5000). -/
def mainTrackIntensityLength (count : ℕ) : ℕ :=
  count * 5000

/-- Length of the trackIntensity buffer allocated by
SnowFieldSystem.initSnowData: new Float32Array(this.count). -/
def classTrackIntensityLength (count : ℕ) : ℕ :=
  count

/-- Sample count of the main.js grid: size 20, segments 100. -/
def mainCount : ℕ :=
  (100 + 1) ^ 2

end

/-! ## Helper lemmas -/

theorem ite_min_lt (a b : ℝ) : (if min a b < a then min a b else a) = min a b := by
  by_cases h : min a b < a
  · simp [h]
  · simp only [h, if_false]
    exact (le_antisymm (min_le_left a b) (not_lt.mp h)).symm

theorem ite_max_lt (a b : ℝ) : (if a < max a b then max a b else a) = max a b := by
  by_cases h : a < max a b
  · simp [h]
  · simp only [h, if_false]
    exact (le_antisymm (not_lt.mp h) (le_max_left a b)).symm

@[simp]
theorem pressSnow_snowSize (s : SnowState) (x z radius depth ci : ℝ) :
    (pressSnow s x z radius depth ci).snowSize = s.snowSize :=
  rfl

@[simp]
theorem pressSnow_snowSegments (s : SnowState) (x z radius depth ci : ℝ) :
    (pressSnow s x z radius depth ci).snowSegments = s.snowSegments :=
  rfl

@[simp]
theorem pressSnow_count (s : SnowState) (x z radius depth ci : ℝ) :
    (pressSnow s x z radius depth ci).count = s.count :=
  rfl

@[simp]
theorem pressSnow_baseX (s : SnowState) (x z radius depth ci : ℝ) (i : ℕ) :
    (pressSnow s x z radius depth ci).baseX i = s.baseX i :=
  rfl

@[simp]
theorem pressSnow_baseZ (s : SnowState) (x z radius depth ci : ℝ) (i : ℕ) :
    (pressSnow s x z radius depth ci).baseZ i = s.baseZ i :=
  rfl

/-- Normal form of the elevation update performed by pressSnow. -/
theorem pressSnow_elevations_apply (s : SnowState) (x z radius depth ci : ℝ) (i : ℕ) :
    (pressSnow s x z radius depth ci).elevations i =
      if i < s.count ∧ Real.sqrt ((s.baseX i - x) ^ 2 + (s.baseZ i - z) ^ 2) < radius then
        min (s.elevations i)
          (-depth * (1 - Real.sqrt ((s.baseX i - x) ^ 2 + (s.baseZ i - z) ^ 2) / radius))
      else s.elevations i := by
  by_cases hi : i < s.count
  · by_cases hd : Real.sqrt ((s.baseX i - x) ^ 2 + (s.baseZ i - z) ^ 2) < radius
    · simp only [pressSnow, hi, hd, and_self, if_true, ite_true]
      exact ite_min_lt _ _
    · simp [pressSnow, hi, hd]
  · simp [pressSnow, hi]

/-- Normal form of the track-intensity update performed by pressSnow. -/
theorem pressSnow_trackIntensity_apply (s : SnowState) (x z radius depth ci : ℝ) (i : ℕ) :
    (pressSnow s x z radius depth ci).trackIntensity i =
      if i < s.count ∧ Real.sqrt ((s.baseX i - x) ^ 2 + (s.baseZ i - z) ^ 2) < radius then
        max (s.trackIntensity i)
          (ci * (1 - Real.sqrt ((s.baseX i - x) ^ 2 + (s.baseZ i - z) ^ 2) / radius))
      else s.trackIntensity i := by
  by_cases hi : i < s.count
  · by_cases hd : Real.sqrt ((s.baseX i - x) ^ 2 + (s.baseZ i - z) ^ 2) < radius
    · simp only [pressSnow, hi, hd, and_self, if_true, ite_true]
      exact ite_max_lt _ _
    · simp [pressSnow, hi, hd]
  · simp [pressSnow, hi]

/-! ## C1 -/

/-- C1: a pressSnow call with positive radius updates every sample
strictly inside the radius to elevation min(old, -depth * influence) and
track intensity max(old, colorIntensity * influence) with
influence = 1 - d/radius, and leaves every sample at distance at least
radius unchanged. -/
theorem pressSnow_radial_update (s : SnowState) (cx cz radius depth ci : ℝ) (i : ℕ)
    (hi : i < s.count) (hr : 0 < radius) :
    (Real.sqrt ((s.baseX i - cx) ^ 2 + (s.baseZ i - cz) ^ 2) < radius →
        (pressSnow s cx cz radius depth ci).elevations i =
          min (s.elevations i)
            (-depth * (1 - Real.sqrt ((s.baseX i - cx) ^ 2 + (s.baseZ i - cz) ^ 2) / radius)) ∧
        (pressSnow s cx cz radius depth ci).trackIntensity i =
          max (s.trackIntensity i)
            (ci * (1 - Real.sqrt ((s.baseX i - cx) ^ 2 + (s.baseZ i - cz) ^ 2) / radius))) ∧
    (radius ≤ Real.sqrt ((s.baseX i - cx) ^ 2 + (s.baseZ i - cz) ^ 2) →
        (pressSnow s cx cz radius depth ci).elevations i = s.elevations i ∧
        (pressSnow s cx cz radius depth ci).trackIntensity i = s.trackIntensity i) := by
  constructor
  · intro hd
    rw [pressSnow_elevations_apply, pressSnow_trackIntensity_apply]
    simp [hi, hd]
  · intro hd
    rw [pressSnow_elevations_apply, pressSnow_trackIntensity_apply]
    simp [not_lt.mpr hd]

/-- Witness for C1 at a concrete grid, press and sample. -/
theorem pressSnow_radial_update_witness :
    0 < (initSnowData 2 1).count ∧ (0 : ℝ) < 1 ∧
    ((Real.sqrt (((initSnowData 2 1).baseX 0 - (-1)) ^ 2 +
          ((initSnowData 2 1).baseZ 0 - (-1)) ^ 2) < 1 →
        (pressSnow (initSnowData 2 1) (-1) (-1) 1 (1 / 10) (6 / 10)).elevations 0 =
          min ((initSnowData 2 1).elevations 0)
            (-(1 / 10) * (1 - Real.sqrt (((initSnowData 2 1).baseX 0 - (-1)) ^ 2 +
                ((initSnowData 2 1).baseZ 0 - (-1)) ^ 2) / 1)) ∧
        (pressSnow (initSnowData 2 1) (-1) (-1) 1 (1 / 10) (6 / 10)).trackIntensity 0 =
          max ((initSnowData 2 1).trackIntensity 0)
            ((6 / 10) * (1 - Real.sqrt (((initSnowData 2 1).baseX 0 - (-1)) ^ 2 +
                ((initSnowData 2 1).baseZ 0 - (-1)) ^ 2) / 1))) ∧
      (1 ≤ Real.sqrt (((initSnowData 2 1).baseX 0 - (-1)) ^ 2 +
          ((initSnowData 2 1).baseZ 0 - (-1)) ^ 2) →
        (pressSnow (initSnowData 2 1) (-1) (-1) 1 (1 / 10) (6 / 10)).elevations 0 =
          (initSnowData 2 1).elevations 0 ∧
        (pressSnow (initSnowData 2 1) (-1) (-1) 1 (1 / 10) (6 / 10)).trackIntensity 0 =
          (initSnowData 2 1).trackIntensity 0)) :=
  ⟨by norm_num [SnowState.count, initSnowData], by norm_num,
    pressSnow_radial_update (initSnowData 2 1) (-1) (-1) 1 (1 / 10) (6 / 10) 0
      (by norm_num [SnowState.count, initSnowData]) (by norm_num)⟩

/-! ## C2 -/

theorem pressSnow_elevations_le (s : SnowState) (x z radius depth ci : ℝ) (i : ℕ) :
    (pressSnow s x z radius depth ci).elevations i ≤ s.elevations i := by
  rw [pressSnow_elevations_apply]
  split
  · exact min_le_left _ _
  · exact le_refl _

theorem pressSnow_trackIntensity_ge (s : SnowState) (x z radius depth ci : ℝ) (i : ℕ) :
    s.trackIntensity i ≤ (pressSnow s x z radius depth ci).trackIntensity i := by
  rw [pressSnow_trackIntensity_apply]
  split
  · exact le_max_left _ _
  · exact le_refl _

/-- A valid press call keeps the per-sample bounds. -/
theorem pressSnow_bounds (s : SnowState) (c : PressCall) (hc : ValidCall c) (i : ℕ)
    (he : s.elevations i ≤ 0) (ht0 : 0 ≤ s.trackIntensity i) (ht1 : s.trackIntensity i ≤ 1) :
    (applyCall s c).elevations i ≤ 0 ∧
    0 ≤ (applyCall s c).trackIntensity i ∧
    (applyCall s c).trackIntensity i ≤ 1 := by
  obtain ⟨hr, hd, hc0, hc1⟩ := hc
  refine ⟨le_trans (pressSnow_elevations_le s c.x c.z c.radius c.depth c.colorIntensity i) he,
    le_trans ht0 (pressSnow_trackIntensity_ge s c.x c.z c.radius c.depth c.colorIntensity i), ?_⟩
  show (pressSnow s c.x c.z c.radius c.depth c.colorIntensity).trackIntensity i ≤ 1
  rw [pressSnow_trackIntensity_apply]
  split
  · rename_i h
    have hdist : (0 : ℝ) ≤ Real.sqrt ((s.baseX i - c.x) ^ 2 + (s.baseZ i - c.z) ^ 2) :=
      Real.sqrt_nonneg _
    have hratio0 : (0 : ℝ) ≤
        Real.sqrt ((s.baseX i - c.x) ^ 2 + (s.baseZ i - c.z) ^ 2) / c.radius :=
      div_nonneg hdist (le_of_lt hr)
    have hratio1 :
        Real.sqrt ((s.baseX i - c.x) ^ 2 + (s.baseZ i - c.z) ^ 2) / c.radius < 1 :=
      (div_lt_one hr).mpr h.2
    refine max_le ht1 ?_
    have hinf0 : (0 : ℝ) ≤
        1 - Real.sqrt ((s.baseX i - c.x) ^ 2 + (s.baseZ i - c.z) ^ 2) / c.radius := by
      linarith
    have hinf1 :
        1 - Real.sqrt ((s.baseX i - c.x) ^ 2 + (s.baseZ i - c.z) ^ 2) / c.radius ≤ 1 := by
      linarith
    calc c.colorIntensity *
          (1 - Real.sqrt ((s.baseX i - c.x) ^ 2 + (s.baseZ i - c.z) ^ 2) / c.radius)
        ≤ 1 * 1 := mul_le_mul hc1 hinf1 hinf0 zero_le_one
      _ = 1 := one_mul 1
  · exact ht1

theorem applyCalls_elevations_le (l : List PressCall) (s : SnowState) (i : ℕ) :
    (applyCalls s l).elevations i ≤ s.elevations i := by
  induction l generalizing s with
  | nil => exact le_refl _
  | cons c l ih =>
    calc (applyCalls s (c :: l)).elevations i
        = (applyCalls (applyCall s c) l).elevations i := rfl
      _ ≤ (applyCall s c).elevations i := ih (applyCall s c)
      _ ≤ s.elevations i := pressSnow_elevations_le s c.x c.z c.radius c.depth c.colorIntensity i

theorem applyCalls_trackIntensity_ge (l : List PressCall) (s : SnowState) (i : ℕ) :
    s.trackIntensity i ≤ (applyCalls s l).trackIntensity i := by
  induction l generalizing s with
  | nil => exact le_refl _
  | cons c l ih =>
    calc s.trackIntensity i
        ≤ (applyCall s c).trackIntensity i :=
          pressSnow_trackIntensity_ge s c.x c.z c.radius c.depth c.colorIntensity i
      _ ≤ (applyCalls (applyCall s c) l).trackIntensity i := ih (applyCall s c)
      _ = (applyCalls s (c :: l)).trackIntensity i := rfl

theorem applyCalls_bounds (l : List PressCall) (s : SnowState)
    (hvalid : ∀ c ∈ l, ValidCall c) (i : ℕ)
    (he : s.elevations i ≤ 0) (ht0 : 0 ≤ s.trackIntensity i) (ht1 : s.trackIntensity i ≤ 1) :
    (applyCalls s l).elevations i ≤ 0 ∧
    0 ≤ (applyCalls s l).trackIntensity i ∧
    (applyCalls s l).trackIntensity i ≤ 1 := by
  induction l generalizing s with
  | nil => exact ⟨he, ht0, ht1⟩
  | cons c l ih =>
    have hc : ValidCall c := hvalid c (List.mem_cons_self c l)
    obtain ⟨he2, ht02, ht12⟩ := pressSnow_bounds s c hc i he ht0 ht1
    exact ih (applyCall s c) (fun d hd => hvalid d (List.mem_cons_of_mem c hd)) he2 ht02 ht12

theorem applyCalls_append_eq (s : SnowState) (l1 l2 : List PressCall) :
    applyCalls s (l1 ++ l2) = applyCalls (applyCalls s l1) l2 := by
  simp [applyCalls, List.foldl_append]

/-- C2: starting from the freshly initialised state, any sequence of
valid press calls keeps every elevation nonpositive and every track
intensity inside the unit interval, and along the sequence the track
intensity never decreases while the elevation never increases. -/
theorem applyCalls_invariant (size : ℝ) (segments : ℕ) (l1 l2 : List PressCall)
    (h : ∀ c ∈ l1 ++ l2, ValidCall c) (i : ℕ) :
    (applyCalls (initSnowData size segments) (l1 ++ l2)).elevations i ≤ 0 ∧
    0 ≤ (applyCalls (initSnowData size segments) (l1 ++ l2)).trackIntensity i ∧
    (applyCalls (initSnowData size segments) (l1 ++ l2)).trackIntensity i ≤ 1 ∧
    (applyCalls (initSnowData size segments) l1).trackIntensity i ≤
      (applyCalls (initSnowData size segments) (l1 ++ l2)).trackIntensity i ∧
    (applyCalls (initSnowData size segments) (l1 ++ l2)).elevations i ≤
      (applyCalls (initSnowData size segments) l1).elevations i := by
  obtain ⟨he, ht0, ht1⟩ := applyCalls_bounds (l1 ++ l2) (initSnowData size segments) h i
    (le_refl 0) (le_refl 0) zero_le_one
  refine ⟨he, ht0, ht1, ?_, ?_⟩
  · rw [applyCalls_append_eq]
    exact applyCalls_trackIntensity_ge l2 (applyCalls (initSnowData size segments) l1) i
  · rw [applyCalls_append_eq]
    exact applyCalls_elevations_le l2 (applyCalls (initSnowData size segments) l1) i

/-- Witness for C2 with a concrete one-call sequence. -/
theorem applyCalls_invariant_witness :
    ValidCall (PressCall.mk 0 0 1 1 1) ∧
    ((applyCalls (initSnowData 2 1) ([] ++ [PressCall.mk 0 0 1 1 1])).elevations 0 ≤ 0 ∧
      0 ≤ (applyCalls (initSnowData 2 1) ([] ++ [PressCall.mk 0 0 1 1 1])).trackIntensity 0 ∧
      (applyCalls (initSnowData 2 1) ([] ++ [PressCall.mk 0 0 1 1 1])).trackIntensity 0 ≤ 1 ∧
      (applyCalls (initSnowData 2 1) []).trackIntensity 0 ≤
        (applyCalls (initSnowData 2 1) ([] ++ [PressCall.mk 0 0 1 1 1])).trackIntensity 0 ∧
      (applyCalls (initSnowData 2 1) ([] ++ [PressCall.mk 0 0 1 1 1])).elevations 0 ≤
        (applyCalls (initSnowData 2 1) []).elevations 0) :=
  have hv : ∀ c ∈ ([] ++ [PressCall.mk 0 0 1 1 1]), ValidCall c := by
    intro c hc
    simp only [List.nil_append, List.mem_singleton] at hc
    subst hc
    exact ⟨by norm_num, by norm_num, by norm_num, by norm_num⟩
  ⟨⟨by norm_num, by norm_num, by norm_num, by norm_num⟩,
    applyCalls_invariant 2 1 [] [PressCall.mk 0 0 1 1 1] hv 0⟩

/-! ## C4 -/

/-- C4: getVertexIndex equals the per-axis floor-and-clamp formula and
always lands strictly below count = (segments+1)^2 and at or above 0,
for every pair of real inputs. -/
theorem getVertexIndex_spec (s : SnowState) (x z : ℝ) :
    getVertexIndex s x z =
      max 0 (min (s.snowSegments : ℤ) ⌊(z + s.snowSize / 2) / s.subdivision⌋) *
        ((s.snowSegments : ℤ) + 1) +
      max 0 (min (s.snowSegments : ℤ) ⌊(x + s.snowSize / 2) / s.subdivision⌋) ∧
    0 ≤ getVertexIndex s x z ∧
    getVertexIndex s x z < ((s.snowSegments : ℤ) + 1) ^ 2 := by
  refine ⟨rfl, ?_, ?_⟩ <;>
  · simp only [getVertexIndex]
    generalize ⌊(x + s.snowSize / 2) / s.subdivision⌋ = fx
    generalize ⌊(z + s.snowSize / 2) / s.subdivision⌋ = fz
    have hn0 : (0 : ℤ) ≤ (s.snowSegments : ℤ) := Int.natCast_nonneg _
    have hx0 : (0 : ℤ) ≤ max 0 (min (s.snowSegments : ℤ) fx) := le_max_left 0 _
    have hz0 : (0 : ℤ) ≤ max 0 (min (s.snowSegments : ℤ) fz) := le_max_left 0 _
    have hx1 : max 0 (min (s.snowSegments : ℤ) fx) ≤ (s.snowSegments : ℤ) :=
      max_le hn0 (min_le_left _ _)
    have hz1 : max 0 (min (s.snowSegments : ℤ) fz) ≤ (s.snowSegments : ℤ) :=
      max_le hn0 (min_le_left _ _)
    have hmul : max 0 (min (s.snowSegments : ℤ) fz) * ((s.snowSegments : ℤ) + 1) ≤
        (s.snowSegments : ℤ) * ((s.snowSegments : ℤ) + 1) :=
      mul_le_mul_of_nonneg_right hz1 (by linarith)
    have hsq : ((s.snowSegments : ℤ) + 1) ^ 2 =
        (s.snowSegments : ℤ) * ((s.snowSegments : ℤ) + 1) + (s.snowSegments : ℤ) + 1 := by
      ring
    first
    | exact add_nonneg (mul_nonneg hz0 (by linarith)) hx0
    | linarith

/-! ## C5 -/

/-- C5 failing path: the main.js trackIntensity buffer holds count*5000
entries instead of count (51,005,000 instead of 10,201 for the actual
grid), while the class path and the elevations buffer hold exactly
count. -/
theorem trackIntensity_allocation_mismatch :
    mainCount = 10201 ∧
    mainTrackIntensityLength mainCount = 51005000 ∧
    mainTrackIntensityLength mainCount ≠ mainCount ∧
    classTrackIntensityLength mainCount = mainCount ∧
    mainElevationsLength mainCount = mainCount := by
  refine ⟨?_, ?_, ?_, rfl, rfl⟩ <;>
    norm_num [mainTrackIntensityLength, mainCount]

/-! ## C6 -/

/-- C6 counterexample: constructing with size -1 (which is at most 0)
does not fail; it returns the initialised grid unchanged, with the
negative size accepted as given. -/
theorem construct_negative_size_succeeds :
    (-1 : ℝ) ≤ 0 ∧ construct (some (-1)) none = Except.ok (initSnowData (-1) 100) := by
  constructor
  · norm_num
  · simp only [construct]
    norm_num

/-- C6 amended: construction never fails for any inputs (the code has no
InvalidArgument check and no failure path); a size or segments argument
equal to 0 falls back to the defaults 20 and 100 through the JS OR
operator rather than erroring, and other values, including negative
ones, are used as given. -/
theorem construct_never_fails (sizeOpt : Option ℝ) (segmentsOpt : Option ℕ) :
    (∃ st : SnowState, construct sizeOpt segmentsOpt = Except.ok st) ∧
    construct (some 0) segmentsOpt = construct none segmentsOpt ∧
    construct sizeOpt (some 0) = construct sizeOpt none := by
  refine ⟨⟨_, rfl⟩, ?_, ?_⟩
  · simp [construct]
  · simp [construct]

/-! ## C8 -/

theorem max_right_comm_real (a b c : ℝ) : max (max a b) c = max (max a c) b := by
  rw [max_assoc, max_comm b c, ← max_assoc]

theorem applyCall_comm_aux (s : SnowState) (a b : PressCall) :
    applyCall (applyCall s a) b = applyCall (applyCall s b) a := by
  have hElev : (applyCall (applyCall s a) b).elevations =
      (applyCall (applyCall s b) a).elevations := by
    funext i
    simp only [applyCall, pressSnow_elevations_apply, pressSnow_count,
      pressSnow_baseX, pressSnow_baseZ]
    by_cases hic : i < s.count
    · by_cases hdA : Real.sqrt ((s.baseX i - a.x) ^ 2 + (s.baseZ i - a.z) ^ 2) < a.radius <;>
        by_cases hdB : Real.sqrt ((s.baseX i - b.x) ^ 2 + (s.baseZ i - b.z) ^ 2) < b.radius <;>
        simp [hic, hdA, hdB, min_right_comm]
    · simp [hic]
  have hTrack : (applyCall (applyCall s a) b).trackIntensity =
      (applyCall (applyCall s b) a).trackIntensity := by
    funext i
    simp only [applyCall, pressSnow_trackIntensity_apply, pressSnow_count,
      pressSnow_baseX, pressSnow_baseZ]
    by_cases hic : i < s.count
    · by_cases hdA : Real.sqrt ((s.baseX i - a.x) ^ 2 + (s.baseZ i - a.z) ^ 2) < a.radius <;>
        by_cases hdB : Real.sqrt ((s.baseX i - b.x) ^ 2 + (s.baseZ i - b.z) ^ 2) < b.radius <;>
        simp [hic, hdA, hdB, max_right_comm_real]
    · simp [hic]
  exact SnowState.ext rfl rfl hElev hTrack

theorem applyCalls_perm_eq (s : SnowState) (l l2 : List PressCall) (hp : l.Perm l2) :
    applyCalls s l = applyCalls s l2 := by
  induction hp generalizing s with
  | nil => rfl
  | cons c _ ih => exact ih (applyCall s c)
  | swap c d l =>
    show applyCalls (applyCall (applyCall s d) c) l =
      applyCalls (applyCall (applyCall s c) d) l
    rw [applyCall_comm_aux]
  | trans _ _ ih1 ih2 => exact (ih1 s).trans (ih2 s)

/-- C8: two press calls commute on the whole state, and any permutation
of a sequence of press calls (such as the five presses of
addVehicleTrack) gives the same final state. -/
theorem pressSnow_comm (s : SnowState) (a b : PressCall)
    (ha : ValidCall a) (hb : ValidCall b) (l l2 : List PressCall) (hp : l.Perm l2) :
    applyCall (applyCall s a) b = applyCall (applyCall s b) a ∧
    applyCalls s l = applyCalls s l2 :=
  ⟨applyCall_comm_aux s a b, applyCalls_perm_eq s l l2 hp⟩

/-- Witness for C8 with concrete presses and a concrete swap. -/
theorem pressSnow_comm_witness :
    ValidCall (PressCall.mk 0 0 1 1 1) ∧
    ValidCall (PressCall.mk 1 1 2 1 1) ∧
    ([PressCall.mk 0 0 1 1 1, PressCall.mk 1 1 2 1 1].Perm
      [PressCall.mk 1 1 2 1 1, PressCall.mk 0 0 1 1 1]) ∧
    (applyCall (applyCall (initSnowData 2 1) (PressCall.mk 0 0 1 1 1))
        (PressCall.mk 1 1 2 1 1) =
      applyCall (applyCall (initSnowData 2 1) (PressCall.mk 1 1 2 1 1))
        (PressCall.mk 0 0 1 1 1) ∧
    applyCalls (initSnowData 2 1)
        [PressCall.mk 0 0 1 1 1, PressCall.mk 1 1 2 1 1] =
      applyCalls (initSnowData 2 1)
        [PressCall.mk 1 1 2 1 1, PressCall.mk 0 0 1 1 1]) :=
  ⟨⟨by norm_num, by norm_num, by norm_num, by norm_num⟩,
    ⟨by norm_num, by norm_num, by norm_num, by norm_num⟩,
    List.Perm.swap (PressCall.mk 1 1 2 1 1) (PressCall.mk 0 0 1 1 1) [],
    pressSnow_comm (initSnowData 2 1) (PressCall.mk 0 0 1 1 1) (PressCall.mk 1 1 2 1 1)
      ⟨by norm_num, by norm_num, by norm_num, by norm_num⟩
      ⟨by norm_num, by norm_num, by norm_num, by norm_num⟩
      [PressCall.mk 0 0 1 1 1, PressCall.mk 1 1 2 1 1]
      [PressCall.mk 1 1 2 1 1, PressCall.mk 0 0 1 1 1]
      (List.Perm.swap (PressCall.mk 1 1 2 1 1) (PressCall.mk 0 0 1 1 1) [])⟩

/-! ## C10 -/

/-- C10: a press with nonpositive radius is a complete no-op: the state
is returned unchanged, every sample untouched. -/
theorem pressSnow_nonpositive_radius (s : SnowState) (x z radius depth ci : ℝ)
    (h : radius ≤ 0) : pressSnow s x z radius depth ci = s := by
  have hnot : ∀ i : ℕ, ¬(i < s.count ∧
      Real.sqrt ((s.baseX i - x) ^ 2 + (s.baseZ i - z) ^ 2) < radius) := by
    intro i hi
    exact absurd hi.2 (not_lt.mpr (h.trans (Real.sqrt_nonneg _)))
  refine SnowState.ext rfl rfl ?_ ?_
  · funext i
    rw [pressSnow_elevations_apply, if_neg (hnot i)]
  · funext i
    rw [pressSnow_trackIntensity_apply, if_neg (hnot i)]

/-- Witness for C10 at radius 0 on the fresh grid. -/
theorem pressSnow_nonpositive_radius_witness :
    (0 : ℝ) ≤ 0 ∧ pressSnow (initSnowData 2 1) 5 5 0 1 1 = initSnowData 2 1 :=
  ⟨le_refl 0, pressSnow_nonpositive_radius (initSnowData 2 1) 5 5 0 1 1 (le_refl 0)⟩

/-! ## C7 -/

theorem mod_le_segments (s : SnowState) (i : ℕ) :
    i % (s.snowSegments + 1) ≤ s.snowSegments :=
  Nat.lt_succ_iff.mp (Nat.mod_lt i (Nat.succ_pos _))

theorem div_le_segments (s : SnowState) (i : ℕ) (hi : i < s.count) :
    i / (s.snowSegments + 1) ≤ s.snowSegments := by
  have h2 : i < (s.snowSegments + 1) * (s.snowSegments + 1) := by
    have := hi
    rwa [SnowState.count, pow_two] at this
  exact Nat.lt_succ_iff.mp ((Nat.div_lt_iff_lt_mul (Nat.succ_pos _)).mpr h2)

theorem leftIdx_eq_specLeft (s : SnowState) (i : ℕ) : leftIdx s i = specLeft s i := by
  unfold leftIdx specLeft
  rcases Nat.eq_zero_or_pos (i % (s.snowSegments + 1)) with h | h
  · simp [h]
  · simp [h, Nat.pos_iff_ne_zero.mp h]

theorem rightIdx_eq_specRight (s : SnowState) (i : ℕ) : rightIdx s i = specRight s i := by
  unfold rightIdx specRight
  rcases lt_or_eq_of_le (mod_le_segments s i) with h | h
  · simp [h, ne_of_lt h]
  · simp [h]

theorem topIdx_eq_specTop (s : SnowState) (i : ℕ) : topIdx s i = specTop s i := by
  unfold topIdx specTop
  rcases Nat.eq_zero_or_pos (i / (s.snowSegments + 1)) with h | h
  · simp [h]
  · simp [h, Nat.pos_iff_ne_zero.mp h]

theorem bottomIdx_eq_specBottom (s : SnowState) (i : ℕ) (hi : i < s.count) :
    bottomIdx s i = specBottom s i := by
  unfold bottomIdx specBottom
  rcases lt_or_eq_of_le (div_le_segments s i hi) with h | h
  · simp [h, ne_of_lt h]
  · simp [h]

/-- C7: for every sample of the grid, the normal computed by
updateSnowGeometry is exactly the spec's description: clamped
neighbours, normalized edge vectors, the four normalized cross products
right x bottom, bottom x left, left x top, top x right, summed and
re-normalized. -/
theorem normalAt_eq_specNormalAt (s : SnowState) (i : ℕ) (hi : i < s.count) :
    normalAt s i = specNormalAt s i := by
  unfold normalAt specNormalAt specEdge
  rw [leftIdx_eq_specLeft, rightIdx_eq_specRight, topIdx_eq_specTop,
    bottomIdx_eq_specBottom s i hi]

/-- Witness for C7 at a concrete grid and sample. -/
theorem normalAt_eq_specNormalAt_witness :
    0 < (initSnowData 2 1).count ∧
    normalAt (initSnowData 2 1) 0 = specNormalAt (initSnowData 2 1) 0 :=
  ⟨by norm_num [SnowState.count, initSnowData],
    normalAt_eq_specNormalAt (initSnowData 2 1) 0
      (by norm_num [SnowState.count, initSnowData])⟩

/-! ## C9 -/

theorem Vec3.length_zero_iff (v : Vec3) : v.length = 0 ↔ v = Vec3.mk 0 0 0 := by
  constructor
  · intro h
    rw [Vec3.length] at h
    have hsum : v.x ^ 2 + v.y ^ 2 + v.z ^ 2 ≤ 0 := Real.sqrt_eq_zero'.mp h
    have hx : v.x ^ 2 = 0 :=
      le_antisymm (by nlinarith [sq_nonneg v.y, sq_nonneg v.z]) (sq_nonneg v.x)
    have hy : v.y ^ 2 = 0 :=
      le_antisymm (by nlinarith [sq_nonneg v.x, sq_nonneg v.z]) (sq_nonneg v.y)
    have hz : v.z ^ 2 = 0 :=
      le_antisymm (by nlinarith [sq_nonneg v.x, sq_nonneg v.y]) (sq_nonneg v.z)
    ext
    · exact pow_eq_zero_iff two_ne_zero |>.mp hx
    · exact pow_eq_zero_iff two_ne_zero |>.mp hy
    · exact pow_eq_zero_iff two_ne_zero |>.mp hz
  · rintro rfl
    rw [Vec3.length]
    norm_num

theorem Vec3.normalize_zeroVec : (Vec3.mk 0 0 0).normalize = Vec3.mk 0 0 0 := by
  rw [Vec3.normalize, if_pos]
  exact (Vec3.length_zero_iff _).mpr rfl

theorem Vec3.cross_zero_left (b : Vec3) : Vec3.cross (Vec3.mk 0 0 0) b = Vec3.mk 0 0 0 := by
  simp [Vec3.cross]

theorem Vec3.cross_zero_right (a : Vec3) : Vec3.cross a (Vec3.mk 0 0 0) = Vec3.mk 0 0 0 := by
  simp [Vec3.cross]

open Classical in
theorem skip_term_eq (a b : Vec3) :
    (Vec3.cross a.normalize b.normalize).normalize =
      (if a = Vec3.mk 0 0 0 ∨ b = Vec3.mk 0 0 0 then Vec3.mk 0 0 0
       else (Vec3.cross a.normalize b.normalize).normalize) := by
  split_ifs with h
  · rcases h with h | h <;> subst h <;>
      simp [Vec3.normalize_zeroVec, Vec3.cross_zero_left, Vec3.cross_zero_right]
  · rfl

/-- C9: the normal derived by updateSnowGeometry always coincides with
the spec's degenerate-case variant in which a zero-length edge's cross
products are skipped: the fallback of THREE's normalize keeps a
collapsed edge at the zero vector, so its cross products contribute
nothing to the summed normal. -/
theorem normalAt_eq_skipNormalAt (s : SnowState) (i : ℕ) :
    normalAt s i = skipNormalAt s i := by
  simp only [normalAt, skipNormalAt]
  conv_lhs =>
    rw [skip_term_eq (Vec3.sub (posAt s (rightIdx s i)) (posAt s i))
        (Vec3.sub (posAt s (bottomIdx s i)) (posAt s i)),
      skip_term_eq (Vec3.sub (posAt s (bottomIdx s i)) (posAt s i))
        (Vec3.sub (posAt s (leftIdx s i)) (posAt s i)),
      skip_term_eq (Vec3.sub (posAt s (leftIdx s i)) (posAt s i))
        (Vec3.sub (posAt s (topIdx s i)) (posAt s i)),
      skip_term_eq (Vec3.sub (posAt s (topIdx s i)) (posAt s i))
        (Vec3.sub (posAt s (rightIdx s i)) (posAt s i))]

/-! ## C3 -/

theorem resetInit_posAt_zero :
    posAt (resetSnow (initSnowData 2 1)) 0 = Vec3.mk (-1) 0 (-1) := by
  simp only [posAt, SnowState.baseX, SnowState.baseY, SnowState.baseZ, SnowState.subdivision,
    SnowState.count, resetSnow, initSnowData, Vec3.mk.injEq]
  norm_num

theorem resetInit_posAt_one :
    posAt (resetSnow (initSnowData 2 1)) 1 = Vec3.mk 1 0 (-1) := by
  simp only [posAt, SnowState.baseX, SnowState.baseY, SnowState.baseZ, SnowState.subdivision,
    SnowState.count, resetSnow, initSnowData, Vec3.mk.injEq]
  norm_num

theorem resetInit_posAt_two :
    posAt (resetSnow (initSnowData 2 1)) 2 = Vec3.mk (-1) 0 1 := by
  simp only [posAt, SnowState.baseX, SnowState.baseY, SnowState.baseZ, SnowState.subdivision,
    SnowState.count, resetSnow, initSnowData, Vec3.mk.injEq]
  norm_num

theorem resetInit_rightIdx_zero : rightIdx (resetSnow (initSnowData 2 1)) 0 = 1 := by
  norm_num [rightIdx, resetSnow, initSnowData]

theorem resetInit_bottomIdx_zero : bottomIdx (resetSnow (initSnowData 2 1)) 0 = 2 := by
  norm_num [bottomIdx, resetSnow, initSnowData]

theorem resetInit_leftIdx_zero : leftIdx (resetSnow (initSnowData 2 1)) 0 = 0 := by
  norm_num [leftIdx, resetSnow, initSnowData]

theorem resetInit_topIdx_zero : topIdx (resetSnow (initSnowData 2 1)) 0 = 0 := by
  norm_num [topIdx, resetSnow, initSnowData]

theorem sqrt_four_eq_two : Real.sqrt 4 = 2 := by
  rw [show (4 : ℝ) = 2 ^ 2 by norm_num]
  exact Real.sqrt_sq (by norm_num)

theorem normalize_two_x : (Vec3.mk 2 0 0).normalize = Vec3.mk 1 0 0 := by
  have hlen : (Vec3.mk 2 0 0).length = 2 := by
    rw [Vec3.length]
    norm_num [sqrt_four_eq_two]
  rw [Vec3.normalize, hlen]
  norm_num [Vec3.mk.injEq]

theorem normalize_two_z : (Vec3.mk 0 0 2).normalize = Vec3.mk 0 0 1 := by
  have hlen : (Vec3.mk 0 0 2).length = 2 := by
    rw [Vec3.length]
    norm_num [sqrt_four_eq_two]
  rw [Vec3.normalize, hlen]
  norm_num [Vec3.mk.injEq]

theorem normalize_down : (Vec3.mk 0 (-1) 0).normalize = Vec3.mk 0 (-1) 0 := by
  have hlen : (Vec3.mk 0 (-1) 0).length = 1 := by
    rw [Vec3.length]
    norm_num [Real.sqrt_one]
  rw [Vec3.normalize, hlen]
  norm_num [Vec3.mk.injEq]

/-- C3 evaluated at the failing input: after reset() on the size-2,
1-segment grid, the derived normal at sample 0 is (0, -1, 0), pointing
downward, while a freshly constructed grid's normal buffer (recorded as
baseNormals by initSnowData) holds (0, 1, 0) there; the reset-then-derive
buffers therefore differ from the fresh buffers. -/
theorem reset_derive_normal_flipped :
    normalAt (resetSnow (initSnowData 2 1)) 0 = Vec3.mk 0 (-1) 0 ∧
    baseNormalAt 0 = Vec3.mk 0 1 0 ∧
    normalAt (resetSnow (initSnowData 2 1)) 0 ≠ baseNormalAt 0 := by
  have hsub1 : Vec3.sub (Vec3.mk 1 0 (-1)) (Vec3.mk (-1) 0 (-1)) = Vec3.mk 2 0 0 := by
    simp only [Vec3.sub, Vec3.mk.injEq]
    norm_num
  have hsub2 : Vec3.sub (Vec3.mk (-1) 0 1) (Vec3.mk (-1) 0 (-1)) = Vec3.mk 0 0 2 := by
    simp only [Vec3.sub, Vec3.mk.injEq]
    norm_num
  have hsub3 : Vec3.sub (Vec3.mk (-1) 0 (-1)) (Vec3.mk (-1) 0 (-1)) = Vec3.mk 0 0 0 := by
    simp only [Vec3.sub, Vec3.mk.injEq]
    norm_num
  have hcross1 : Vec3.cross (Vec3.mk 1 0 0) (Vec3.mk 0 0 1) = Vec3.mk 0 (-1) 0 := by
    simp only [Vec3.cross, Vec3.mk.injEq]
    norm_num
  have hadd : Vec3.add (Vec3.add (Vec3.add (Vec3.mk 0 (-1) 0) (Vec3.mk 0 0 0))
      (Vec3.mk 0 0 0)) (Vec3.mk 0 0 0) = Vec3.mk 0 (-1) 0 := by
    simp only [Vec3.add, Vec3.mk.injEq]
    norm_num
  have hmain : normalAt (resetSnow (initSnowData 2 1)) 0 = Vec3.mk 0 (-1) 0 := by
    rw [normalAt, resetInit_rightIdx_zero, resetInit_bottomIdx_zero,
      resetInit_leftIdx_zero, resetInit_topIdx_zero,
      resetInit_posAt_zero, resetInit_posAt_one, resetInit_posAt_two]
    rw [hsub1, hsub2, hsub3]
    rw [normalize_two_x, normalize_two_z, Vec3.normalize_zeroVec]
    rw [hcross1, Vec3.cross_zero_right (Vec3.mk 0 0 1),
      Vec3.cross_zero_left (Vec3.mk 0 0 0), Vec3.cross_zero_left (Vec3.mk 1 0 0)]
    rw [normalize_down, Vec3.normalize_zeroVec]
    rw [hadd]
    exact normalize_down
  refine ⟨hmain, rfl, ?_⟩
  rw [hmain, baseNormalAt]
  intro h
  have := congrArg Vec3.y h
  norm_num at this

end SnowTrack
